import Mathlib

/-!
# Verification of the TGUI Picture widget and container invariants

A shallow embedding of the code in `src/TGUI/Picture.cpp` together with a
model, taken from the specification, of the container focus and naming
operations that `include/TGUI/Gui.hpp` declares.  Widget coordinates
(C++ `float`) are embedded as rationals; texture pixel sizes (C++
`unsigned int`) as naturals.  External collaborators of the widget — the
global texture manager, the resource path, the transparency test of a
loaded image, and the property handling of the `ClickableWidget` base
class — are passed in as an explicit environment of oracles.
-/

namespace TGUI

/-- Pixel data held by the texture manager for one loaded image:
its size in pixels and its smoothing flag (`sf::Texture::setSmooth`). -/
structure TextureData where
  sizeX : Nat
  sizeY : Nat
  smooth : Bool
deriving DecidableEq, Repr

/-- The `tgui::Texture` member of a Picture: a possibly-null pointer to
shared texture data, plus the sprite position and display size that
`setPosition` / `setSize` forward to it. -/
structure Texture where
  data : Option TextureData
  posX : Rat
  posY : Rat
  sizeX : Rat
  sizeY : Rat
deriving DecidableEq, Repr

/-- `Texture::getSize().x`: the pixel width of the attached data
(`0` when no data is attached). -/
def Texture.getSizeX (t : Texture) : Nat :=
  match t.data with
  | some d => d.sizeX
  | none => 0

/-- `Texture::getSize().y`: the pixel height of the attached data
(`0` when no data is attached). -/
def Texture.getSizeY (t : Texture) : Nat :=
  match t.data with
  | some d => d.sizeY
  | none => 0

/-- `TGUI_TextureManager.removeTexture`: releases the texture held by the
widget.  Modelled from the spec: the manager (not under `src/`) does
"simple shared-pointer reference counting for textures"; from the
widget's point of view the release detaches the data pointer. -/
def removeTexture (t : Texture) : Texture :=
  { t with data := none }

/-- The state of a `tgui::Picture` widget: the members of `Picture` and of
its base classes that the functions in `src/TGUI/Picture.cpp` read or
write (base-class members untouched by those functions are omitted).
`warnings` records the messages passed to `TGUI_OUTPUT`. -/
structure Picture where
  m_loaded : Bool
  m_sizeX : Rat
  m_sizeY : Rat
  m_posX : Rat
  m_posY : Rat
  m_loadedFilename : String
  m_texture : Texture
  m_mouseHover : Bool
  warnings : List String
deriving DecidableEq, Repr

/-- The environment a Picture runs in: the global resource path, the
global texture manager (an oracle deciding which filenames load, and to
what pixel data), the per-texture transparency test used by hit-testing,
and the property handling of the `ClickableWidget` base class.  Modelled
from the spec: none of these collaborators is under `src/` — the spec
describes them only as a "global texture-manager singleton" and a
renderer property system of plain getters/setters — so they are oracles
here. -/
structure Env where
  resourcePath : String
  getTexture : String → Option TextureData
  isTransparentPixel : TextureData → Nat → Nat → Bool
  clickableSetProperty : Picture → String → String → Picture × Bool
  clickableGetProperty : Picture → String → String → String × Bool

/-- `tgui::toLower`: lowercases every character of the string (the C++
helper loops `std::tolower` over the characters). -/
def toLower (s : String) : String :=
  ⟨s.data.map Char.toLower⟩

/-- A freshly constructed `Picture()`: not loaded, zero size, empty
filename, no texture data. -/
def Picture.init : Picture :=
  { m_loaded := false
    m_sizeX := 0
    m_sizeY := 0
    m_posX := 0
    m_posY := 0
    m_loadedFilename := ""
    m_texture := { data := none, posX := 0, posY := 0, sizeX := 0, sizeY := 0 }
    m_mouseHover := false
    warnings := [] }

/-- `Picture::setSize` (Picture.cpp lines 133-142): stores the new size
unconditionally; if loaded it also resizes the texture sprite, otherwise
it only logs a warning. -/
def Picture.setSize (p : Picture) (width height : Rat) : Picture :=
  let p := { p with m_sizeX := width, m_sizeY := height }
  if p.m_loaded then
    { p with m_texture := { p.m_texture with sizeX := width, sizeY := height } }
  else
    { p with warnings := p.warnings ++ ["TGUI warning: Picture::setSize called while Picture was not loaded yet."] }

/-- `Picture::setSmooth` (Picture.cpp lines 146-152): if loaded, sets the
smoothing flag on the shared texture data; otherwise only logs a
warning. -/
def Picture.setSmooth (p : Picture) (smooth : Bool) : Picture :=
  if p.m_loaded then
    { p with m_texture :=
        { p.m_texture with data := p.m_texture.data.map (fun d => { d with smooth := smooth }) } }
  else
    { p with warnings := p.warnings ++ ["TGUI warning: Picture::setSmooth called while Picture was not loaded yet."] }

/-- `Picture::isSmooth` (Picture.cpp lines 156-165): the smoothing flag of
the texture data when loaded, `false` (with a logged warning) when not.
The function is `const` in C++, so the warning does not appear in the
returned state and is dropped here. -/
def Picture.isSmooth (p : Picture) : Bool :=
  if p.m_loaded then
    match p.m_texture.data with
    | some d => d.smooth
    | none => false
  else
    false

/-- `Picture::load` (Picture.cpp lines 84-113).  Resets the loaded flag
and the size, rejects the empty filename, records the prefixed filename,
releases any previously held texture, then asks the texture manager for
the new one; on success it marks the widget loaded and adopts the
texture's size.  Returns the new state and the boolean result. -/
def Picture.load (env : Env) (p : Picture) (filename : String) : Picture × Bool :=
  let p := { p with m_loaded := false, m_sizeX := 0, m_sizeY := 0 }
  if filename = "" then
    (p, false)
  else
    let p := { p with m_loadedFilename := env.resourcePath ++ filename }
    let p :=
      if p.m_texture.data ≠ none then { p with m_texture := removeTexture p.m_texture } else p
    match env.getTexture p.m_loadedFilename with
    | some td =>
        let p := { p with m_texture := { p.m_texture with data := some td }, m_loaded := true }
        let p := p.setSize (td.sizeX : Rat) (td.sizeY : Rat)
        (p, true)
    | none => (p, false)

/-- `Picture::getLoadedFilename` (Picture.cpp lines 117-120). -/
def Picture.getLoadedFilename (p : Picture) : String :=
  p.m_loadedFilename

/-- `Picture::setPosition` (Picture.cpp lines 124-129): moves the widget
and its texture sprite.  The `Transformable` base class is not under
`src/`; modelled from the spec as the widget's stored position. -/
def Picture.setPosition (p : Picture) (x y : Rat) : Picture :=
  { p with m_posX := x, m_posY := y,
           m_texture := { p.m_texture with posX := x, posY := y } }

/-- Truncation of a rational toward zero followed by conversion to `Nat`,
embedding the C++ `static_cast<unsigned int>` applied to a non-negative
`float`. -/
def ratToPixel (q : Rat) : Nat :=
  (q.num / (q.den : Int)).toNat

/-- `Picture::mouseOnWidget` (Picture.cpp lines 178-201).  Returns `false`
immediately when not loaded.  Otherwise tests whether `(x, y)` lies in the
widget's rectangle (the `Transformable` transform is not under `src/` and
is modelled from the spec as translation by the widget's position, the
`sf::FloatRect::contains` half-open test); on a hit it additionally
requires the pixel under the mouse to be non-transparent.  On a miss the
hover flag is cleared. -/
def Picture.mouseOnWidget (env : Env) (p : Picture) (x y : Rat) : Picture × Bool :=
  if p.m_loaded = false then
    (p, false)
  else
    let inRect : Bool :=
      decide (p.m_posX ≤ x) && decide (x < p.m_posX + p.m_sizeX) &&
      decide (p.m_posY ≤ y) && decide (y < p.m_posY + p.m_sizeY)
    let hit : Bool :=
      inRect &&
        (match p.m_texture.data with
         | some d =>
             let scalingX := p.m_sizeX / (p.m_texture.getSizeX : Rat)
             let scalingY := p.m_sizeY / (p.m_texture.getSizeY : Rat)
             !(env.isTransparentPixel d (ratToPixel ((x - p.m_posX) / scalingX))
                 (ratToPixel ((y - p.m_posY) / scalingY)))
         | none => false)
    if hit then
      (p, true)
    else
      ({ p with m_mouseHover := false }, false)

/-- `Picture::setProperty` (Picture.cpp lines 205-227): dispatches on the
lowercased property name.  "filename" loads (discarding the result),
"smooth" parses the value ("true"/"True"/"false"/"False"), logging an
error on any other value; both matched branches fall through to
`return true`.  Unmatched names delegate to the base class. -/
def Picture.setProperty (env : Env) (p : Picture) (property value : String) : Picture × Bool :=
  let prop := toLower property
  if prop = "filename" then
    ((p.load env value).1, true)
  else if prop = "smooth" then
    if value = "true" ∨ value = "True" then
      (p.setSmooth true, true)
    else if value = "false" ∨ value = "False" then
      (p.setSmooth false, true)
    else
      ({ p with warnings := p.warnings ++ ["TGUI error: Failed to parse Smooth property."] }, true)
  else
    env.clickableSetProperty p prop value

/-- `Picture::getProperty` (Picture.cpp lines 231-244): on "filename"
yields the loaded filename, on "smooth" yields "true"/"false" from
`isSmooth`; other names delegate to the base class.  The C++ out-param
`value` is the second component of the result (left as passed in only
inside the base-class oracle). -/
def Picture.getProperty (env : Env) (p : Picture) (property value : String) : String × Bool :=
  let prop := toLower property
  if prop = "filename" then
    (p.getLoadedFilename, true)
  else if prop = "smooth" then
    (if p.isSmooth then "true" else "false", true)
  else
    env.clickableGetProperty p prop value

/-- Modelled from the spec: the widget entries of a container.  The
implementations behind `Gui.hpp` (Container, Widget focus state,
`Gui::add`) are not under `src/`; the spec describes a container as
owning a list of child widgets, each with a name and a focus flag, where
"a name is unique among siblings" and "exactly one widget may hold input
focus at a time within a container" are the intended invariants. -/
structure FWidget where
  name : String
  focusable : Bool
  focused : Bool
deriving DecidableEq, Repr

/-- Modelled from the spec: a container is the ordered list of its direct
children. -/
abbrev Container := List FWidget

/-- The number of children of a container that currently hold focus. -/
def focusCount : Container → Nat
  | [] => 0
  | w :: ws => (if w.focused then 1 else 0) + focusCount ws

/-- The names of the direct children of a container, in order. -/
def childNames (c : Container) : List String :=
  c.map (fun w => w.name)

/-- Modelled from the spec: `Gui::unfocusAllWidgets` clears the focus flag
of every child. -/
def unfocusAllWidgets (c : Container) : Container :=
  c.map (fun w => { w with focused := false })

/-- Focus exactly the child at index `i`: every other child is unfocused.
Helper for the focus-traversal operations. -/
def focusWidgetAt : Container → Nat → Container
  | [], _ => []
  | w :: ws, 0 => { w with focused := true } :: unfocusAllWidgets ws
  | w :: ws, n + 1 => { w with focused := false } :: focusWidgetAt ws n

/-- The index of the currently focused child, if any. -/
def findFocused (c : Container) : Option Nat :=
  c.findIdx? (fun w => w.focused)

/-- The first focusable index among `s, s+1, ...` cyclically (one full
round of the container). -/
def searchFocusable (c : Container) (s : Nat) : Option Nat :=
  ((List.range c.length).map (fun k => (s + k) % c.length)).find?
    (fun i => ((c.get? i).map (fun w => w.focusable)).getD false)

/-- The first focusable index among `s, s-1, ...` cyclically (one full
round of the container). -/
def searchFocusableBack (c : Container) (s : Nat) : Option Nat :=
  ((List.range c.length).map (fun k => (s + c.length - k) % c.length)).find?
    (fun i => ((c.get? i).map (fun w => w.focusable)).getD false)

/-- Modelled from the spec: `Gui::focusNextWidget` "focuses the next
widget in the gui", returning "whether a new widget was focused".  It
searches forward cyclically from the currently focused child (from the
front when none is focused) for a focusable child; on success that child
becomes the single focused one, otherwise the container is unchanged. -/
def focusNextWidget (c : Container) : Container × Bool :=
  match searchFocusable c
      (match findFocused c with
       | some i => i + 1
       | none => 0) with
  | some j => (focusWidgetAt c j, true)
  | none => (c, false)

/-- Modelled from the spec: `Gui::focusPreviousWidget` "focuses the
previous widget in the gui", searching backward cyclically from the
currently focused child (from the back when none is focused). -/
def focusPreviousWidget (c : Container) : Container × Bool :=
  match searchFocusableBack c
      (match findFocused c with
       | some i => i + c.length - 1
       | none => c.length - 1) with
  | some j => (focusWidgetAt c j, true)
  | none => (c, false)

/-- Modelled from the spec: `Gui::add(widgetPtr, widgetName)` "adds a
widget to the container" under the given name (defaulting to the empty
string); the declaration returns `void`, so the widget is appended
unconditionally and the name stored as given. -/
def addWidget (c : Container) (w : FWidget) (widgetName : String) : Container :=
  c ++ [{ w with name := widgetName }]

/-! ## Concrete fixtures

A concrete environment whose texture manager loads exactly the file
"ok.png" (as a 4×3 opaque texture), with an empty resource path and a
trivial base-class property handler, together with a picture that has
been successfully loaded from it.  Used to evaluate the theorems on
closed inputs. -/

/-- A concrete environment: "ok.png" is the only loadable file. -/
def env0 : Env :=
  { resourcePath := ""
    getTexture := fun f => if f = "ok.png" then some ⟨4, 3, false⟩ else none
    isTransparentPixel := fun _ _ _ => false
    clickableSetProperty := fun p _ _ => (p, false)
    clickableGetProperty := fun _ _ v => (v, false) }

/-- A picture that has successfully loaded "ok.png" in `env0`. -/
def pLoaded : Picture :=
  (Picture.load env0 Picture.init "ok.png").1

/-! ## Helper lemmas -/

/-- After `load` with a non-empty filename, the stored filename is the
resource path followed by the argument, whether or not the load
succeeded. -/
theorem load_loadedFilename (env : Env) (p : Picture) (f : String) (hf : ¬ f = "") :
    (Picture.load env p f).1.m_loadedFilename = env.resourcePath ++ f := by
  by_cases hd : p.m_texture.data = none <;>
    cases hg : env.getTexture (env.resourcePath ++ f) <;>
      simp [Picture.load, Picture.setSize, hf, hd, hg]

/-- Appending to the empty string is the identity. -/
theorem string_empty_append (s : String) : "" ++ s = s := rfl

/-! ## Claims -/

/-- C2.  `Picture::load(filename)` returns `true` exactly when the
filename is non-empty and the texture manager succeeds on the prefixed
filename; in particular it returns `false` for the empty filename and
whenever the texture manager fails. -/
theorem load_true_iff (env : Env) (p : Picture) (f : String) :
    (Picture.load env p f).2 = true ↔
      ¬ f = "" ∧ (env.getTexture (env.resourcePath ++ f)).isSome = true := by
  by_cases hf : f = ""
  · simp [Picture.load, hf]
  · by_cases hd : p.m_texture.data = none <;>
      cases hg : env.getTexture (env.resourcePath ++ f) <;>
        simp [Picture.load, hf, hd, hg]

/-- C7.  When the picture is not loaded, `Picture::mouseOnWidget(x, y)`
returns `false` for every point. -/
theorem mouseOnWidget_unloaded (env : Env) (p : Picture) (x y : Rat)
    (h : p.m_loaded = false) :
    (Picture.mouseOnWidget env p x y).2 = false := by
  simp [Picture.mouseOnWidget, h]

/-- Witness for C7: the fresh picture is unloaded and `mouseOnWidget`
rejects the point (1, 2) on it. -/
theorem mouseOnWidget_unloaded_witness :
    (Picture.mouseOnWidget env0 Picture.init 1 2).2 = false :=
  mouseOnWidget_unloaded env0 Picture.init 1 2 (by decide)

/-- C8.  When `Picture::load(filename)` returns `true`, the picture's
size equals the pixel size of the loaded texture in both dimensions. -/
theorem load_true_size (env : Env) (p : Picture) (f : String)
    (h : (Picture.load env p f).2 = true) :
    (Picture.load env p f).1.m_sizeX = ((Picture.load env p f).1.m_texture.getSizeX : Rat) ∧
    (Picture.load env p f).1.m_sizeY = ((Picture.load env p f).1.m_texture.getSizeY : Rat) := by
  by_cases hf : f = ""
  · simp [Picture.load, hf] at h
  · by_cases hd : p.m_texture.data = none <;>
      cases hg : env.getTexture (env.resourcePath ++ f) <;>
        simp [Picture.load, Picture.setSize, Texture.getSizeX, Texture.getSizeY,
          hf, hd, hg] at h ⊢

/-- Witness for C8: loading "ok.png" in `env0` succeeds and the picture's
size is the texture's 4×3. -/
theorem load_true_size_witness :
    (Picture.load env0 Picture.init "ok.png").1.m_sizeX =
        ((Picture.load env0 Picture.init "ok.png").1.m_texture.getSizeX : Rat) ∧
    (Picture.load env0 Picture.init "ok.png").1.m_sizeY =
        ((Picture.load env0 Picture.init "ok.png").1.m_texture.getSizeY : Rat) :=
  load_true_size env0 Picture.init "ok.png" (by decide)

/-- C9.  When `Picture::load(f)` returns `false` for a non-empty `f`, the
picture is left unloaded with size (0, 0), without texture data (any
previously held texture was released), and with the stored filename equal
to the resource path prefixed to `f` — the filename of the failed
attempt. -/
theorem load_false_state (env : Env) (p : Picture) (f : String)
    (hf : ¬ f = "") (h : (Picture.load env p f).2 = false) :
    (Picture.load env p f).1.m_loaded = false ∧
    (Picture.load env p f).1.m_sizeX = 0 ∧
    (Picture.load env p f).1.m_sizeY = 0 ∧
    (Picture.load env p f).1.m_texture.data = none ∧
    (Picture.load env p f).1.getLoadedFilename = env.resourcePath ++ f := by
  by_cases hd : p.m_texture.data = none <;>
    cases hg : env.getTexture (env.resourcePath ++ f) <;>
      simp [Picture.load, Picture.setSize, Picture.getLoadedFilename,
        removeTexture, hf, hd, hg] at h ⊢

/-- Witness for C9: in `env0` a picture that currently holds the "ok.png"
texture fails to load "bad.png" and is left unloaded, empty of texture
data, sized (0, 0), remembering "bad.png". -/
theorem load_false_state_witness :
    (Picture.load env0 pLoaded "bad.png").1.m_loaded = false ∧
    (Picture.load env0 pLoaded "bad.png").1.m_sizeX = 0 ∧
    (Picture.load env0 pLoaded "bad.png").1.m_sizeY = 0 ∧
    (Picture.load env0 pLoaded "bad.png").1.m_texture.data = none ∧
    (Picture.load env0 pLoaded "bad.png").1.getLoadedFilename = env0.resourcePath ++ "bad.png" :=
  load_false_state env0 pLoaded "bad.png" (by decide) (by decide)

/-- Counterexample to C1 as stated.  On a fresh (unloaded) picture,
`setProperty("Smooth", "true")` succeeds (returns `true`) — but the set
is silently dropped by `setSmooth`, so `getProperty("Smooth")` reads back
"false", not the "true" that was passed in. -/
theorem smooth_roundtrip_cex :
    (Picture.setProperty env0 Picture.init "Smooth" "true").2 = true ∧
    (Picture.getProperty env0
        (Picture.setProperty env0 Picture.init "Smooth" "true").1 "Smooth" "").1 = "false" ∧
    ¬ (Picture.getProperty env0
        (Picture.setProperty env0 Picture.init "Smooth" "true").1 "Smooth" "").1 = "true" := by
  decide

/-- C1 (amended).  Set-then-get returns the value that was set, provided:
for "Smooth", the picture is loaded (with texture data attached) and the
value is the exact lowercase "true" or "false" (the accepted spellings
"True"/"False" read back lowercased); for "Filename", the value is
non-empty and the resource path is empty (otherwise the read-back is the
resource path prefixed to the value).  An unloaded picture drops the
smooth set while still reporting success. -/
theorem setProperty_getProperty_roundtrip (env : Env) (p : Picture) (v w s t : String)
    (hload : p.m_loaded = true) (hdata : p.m_texture.data.isSome = true)
    (hv : v = "true" ∨ v = "false")
    (hrp : env.resourcePath = "") (hw : ¬ w = "") :
    ((Picture.setProperty env p "Smooth" v).2 = true ∧
      (Picture.getProperty env (Picture.setProperty env p "Smooth" v).1 "Smooth" s).1 = v) ∧
    ((Picture.setProperty env p "Filename" w).2 = true ∧
      (Picture.getProperty env (Picture.setProperty env p "Filename" w).1 "Filename" t).1 = w) := by
  obtain ⟨d, hd⟩ := Option.isSome_iff_exists.mp hdata
  have hsm : toLower "Smooth" = "smooth" := by decide
  have hfn : toLower "Filename" = "filename" := by decide
  refine ⟨?_, ?_, ?_⟩
  · rcases hv with hv | hv <;> subst hv <;>
      simp [Picture.setProperty, Picture.getProperty, Picture.setSmooth, Picture.isSmooth,
        hsm, hload, hd]
  · simp [Picture.setProperty, hfn]
  · simp [Picture.setProperty, Picture.getProperty, Picture.getLoadedFilename, hfn,
      load_loadedFilename env p w hw, hrp, string_empty_append]

/-- Witness for C1 (amended): on the loaded picture `pLoaded` in `env0`,
setting "Smooth" to "true" reads back "true", and setting "Filename" to
"ok.png" reads back "ok.png". -/
theorem setProperty_getProperty_roundtrip_witness :
    ((Picture.setProperty env0 pLoaded "Smooth" "true").2 = true ∧
      (Picture.getProperty env0
          (Picture.setProperty env0 pLoaded "Smooth" "true").1 "Smooth" "").1 = "true") ∧
    ((Picture.setProperty env0 pLoaded "Filename" "ok.png").2 = true ∧
      (Picture.getProperty env0
          (Picture.setProperty env0 pLoaded "Filename" "ok.png").1 "Filename" "").1 = "ok.png") :=
  setProperty_getProperty_roundtrip env0 pLoaded "true" "ok.png" "" ""
    (by decide) (by decide) (Or.inl rfl) rfl (by decide)

/-- Counterexample to C3 as stated.  `setProperty("Smooth", "maybe")` —
a value that parses as neither true nor false — returns `true`, not
`false`: the parse failure is not communicated through the boolean return
value. -/
theorem setProperty_smooth_parse_cex :
    ¬ (Picture.setProperty env0 Picture.init "Smooth" "maybe").2 = false := by
  decide

/-- C3 (amended).  When the value given for the "smooth" property parses
as neither true nor false, `Picture::setProperty` still returns `true`
(the return value only signals that the property name matched); the
parse failure is communicated solely through a best-effort logged
warning, and the picture is otherwise unchanged. -/
theorem setProperty_smooth_parse_failure (env : Env) (p : Picture) (v : String)
    (h1 : ¬ v = "true") (h2 : ¬ v = "True")
    (h3 : ¬ v = "false") (h4 : ¬ v = "False") :
    (Picture.setProperty env p "Smooth" v).2 = true ∧
    (Picture.setProperty env p "Smooth" v).1 =
      { p with warnings := p.warnings ++ ["TGUI error: Failed to parse Smooth property."] } := by
  have hsm : toLower "Smooth" = "smooth" := by decide
  simp [Picture.setProperty, hsm, h1, h2, h3, h4]

/-- Witness for C3 (amended): with the unparseable value "maybe",
`setProperty` returns `true` and only appends the parse warning. -/
theorem setProperty_smooth_parse_failure_witness :
    (Picture.setProperty env0 Picture.init "Smooth" "maybe").2 = true ∧
    (Picture.setProperty env0 Picture.init "Smooth" "maybe").1 =
      { Picture.init with warnings :=
          Picture.init.warnings ++ ["TGUI error: Failed to parse Smooth property."] } :=
  setProperty_smooth_parse_failure env0 Picture.init "maybe"
    (by decide) (by decide) (by decide) (by decide)

/-- Counterexample to C4 as stated.  On a fresh (unloaded) picture of
size (0, 0), `setSize(5, 7)` does change the observable size: the stored
size becomes (5, 7) even though the picture is not loaded. -/
theorem setSize_unloaded_cex :
    Picture.init.m_loaded = false ∧
    ¬ (Picture.setSize Picture.init 5 7).m_sizeX = Picture.init.m_sizeX ∧
    (Picture.setSize Picture.init 5 7).m_sizeX = 5 ∧
    (Picture.setSize Picture.init 5 7).m_sizeY = 7 := by
  decide

/-- C4 (amended).  On an unloaded picture, `setSmooth` is ignored apart
from a logged warning (texture, reported smooth flag and size are all
unchanged), but `setSize` still stores the new size — only the texture
update is skipped (with a logged warning). -/
theorem unloaded_setters (p : Picture) (w h' : Rat) (b : Bool)
    (hp : p.m_loaded = false) :
    ((Picture.setSmooth p b).m_texture = p.m_texture ∧
      (Picture.setSmooth p b).isSmooth = p.isSmooth ∧
      (Picture.setSmooth p b).m_sizeX = p.m_sizeX ∧
      (Picture.setSmooth p b).m_sizeY = p.m_sizeY) ∧
    ((Picture.setSize p w h').m_sizeX = w ∧
      (Picture.setSize p w h').m_sizeY = h' ∧
      (Picture.setSize p w h').m_texture = p.m_texture) := by
  simp [Picture.setSmooth, Picture.setSize, Picture.isSmooth, hp]

/-- Witness for C4 (amended): on the fresh picture, `setSmooth true`
leaves texture, smooth flag and size alone, while `setSize 5 7` stores
(5, 7) without touching the texture. -/
theorem unloaded_setters_witness :
    ((Picture.setSmooth Picture.init true).m_texture = Picture.init.m_texture ∧
      (Picture.setSmooth Picture.init true).isSmooth = Picture.init.isSmooth ∧
      (Picture.setSmooth Picture.init true).m_sizeX = Picture.init.m_sizeX ∧
      (Picture.setSmooth Picture.init true).m_sizeY = Picture.init.m_sizeY) ∧
    ((Picture.setSize Picture.init 5 7).m_sizeX = 5 ∧
      (Picture.setSize Picture.init 5 7).m_sizeY = 7 ∧
      (Picture.setSize Picture.init 5 7).m_texture = Picture.init.m_texture) :=
  unloaded_setters Picture.init 5 7 true (by decide)

/-- After `unfocusAllWidgets` no child holds focus. -/
theorem focusCount_unfocusAllWidgets (c : Container) :
    focusCount (unfocusAllWidgets c) = 0 := by
  induction c with
  | nil => rfl
  | cons w ws ih =>
      simpa [unfocusAllWidgets, focusCount] using ih

/-- After focusing the child at any index, at most one child holds
focus. -/
theorem focusCount_focusWidgetAt (c : Container) (j : Nat) :
    focusCount (focusWidgetAt c j) ≤ 1 := by
  induction c generalizing j with
  | nil => simp [focusWidgetAt, focusCount]
  | cons w ws ih =>
      cases j with
      | zero =>
          simp [focusWidgetAt, focusCount, focusCount_unfocusAllWidgets ws]
      | succ n =>
          simpa [focusWidgetAt, focusCount] using ih n

/-- C5.  At most one child of a container holds input focus at a time,
and each focus-changing operation preserves this: after
`focusNextWidget` or `focusPreviousWidget` at most one child is focused,
and after `unfocusAllWidgets` none is. -/
theorem focus_invariant_preserved (c : Container) (h : focusCount c ≤ 1) :
    focusCount (focusNextWidget c).1 ≤ 1 ∧
    focusCount (focusPreviousWidget c).1 ≤ 1 ∧
    focusCount (unfocusAllWidgets c) = 0 := by
  refine ⟨?_, ?_, focusCount_unfocusAllWidgets c⟩
  · unfold focusNextWidget
    split
    · exact focusCount_focusWidgetAt c _
    · exact h
  · unfold focusPreviousWidget
    split
    · exact focusCount_focusWidgetAt c _
    · exact h

/-- Witness for C5: a three-child container with exactly one focused
child keeps the invariant under all three operations. -/
theorem focus_invariant_preserved_witness :
    focusCount (focusNextWidget
      [⟨"a", true, false⟩, ⟨"b", true, true⟩, ⟨"c", false, false⟩]).1 ≤ 1 ∧
    focusCount (focusPreviousWidget
      [⟨"a", true, false⟩, ⟨"b", true, true⟩, ⟨"c", false, false⟩]).1 ≤ 1 ∧
    focusCount (unfocusAllWidgets
      [⟨"a", true, false⟩, ⟨"b", true, true⟩, ⟨"c", false, false⟩]) = 0 :=
  focus_invariant_preserved
    [⟨"a", true, false⟩, ⟨"b", true, true⟩, ⟨"c", false, false⟩] (by decide)

/-- Counterexample to C6 as stated.  Starting from a container whose only
child is named "a" (names unique), adding another widget under the name
"a" yields two siblings with the same name: `add` stores the given name
unconditionally and cannot reject a duplicate. -/
theorem addWidget_duplicate_name_cex :
    (childNames [(⟨"a", true, false⟩ : FWidget)]).Nodup ∧
    childNames (addWidget [⟨"a", true, false⟩] ⟨"", true, false⟩ "a") = ["a", "a"] ∧
    ¬ (childNames (addWidget [⟨"a", true, false⟩] ⟨"", true, false⟩ "a")).Nodup := by
  decide

/-- C6 (amended).  `add` preserves uniqueness of sibling names exactly
when the name given for the new widget is not already the name of a
direct child; the container itself never rejects a duplicate. -/
theorem addWidget_nodup_of_fresh (c : Container) (w : FWidget) (n : String)
    (h : (childNames c).Nodup) (hn : ¬ n ∈ childNames c) :
    (childNames (addWidget c w n)).Nodup := by
  simp [childNames, addWidget, List.nodup_append] at *
  exact ⟨h, fun x hx hxn => hn x hx hxn⟩

/-- Witness for C6 (amended): adding a widget named "b" to a container
whose children are named "a" keeps sibling names unique. -/
theorem addWidget_nodup_of_fresh_witness :
    (childNames (addWidget [⟨"a", true, false⟩] ⟨"", true, false⟩ "b")).Nodup :=
  addWidget_nodup_of_fresh [⟨"a", true, false⟩] ⟨"", true, false⟩ "b"
    (by decide) (by decide)

end TGUI
